import Mathlib

/-!
Shallow embedding of `backend/server.py` (FastAPI service).

The service is a thin request/response layer over a document store (MongoDB,
modelled as an explicit `Store` value threaded through the handlers; the
global `db` handle, which is `None` when `MONGO_URL` is unset, is modelled as
an `Option Store` argument) and one outbound HTTP call (`requests.post` to the
Google Sheets webhook, modelled by a `WebhookOutcome` oracle argument).
`HTTPException(status_code, detail)` is modelled by `HErr`; a handler that can
raise it returns `Except HErr α`.  Nondeterministic ingredients of the source
(`uuid.uuid4()`, `datetime.utcnow()`, Mongo `ObjectId`) are passed in as
explicit arguments.
-/

/-- Python `datetime` value (to second precision, as used by the service). -/
structure PyDatetime where
  year : Nat
  month : Nat
  day : Nat
  hour : Nat
  minute : Nat
  second : Nat
deriving DecidableEq

def pad2 (n : Nat) : String := if n < 10 then "0" ++ toString n else toString n

def pad4 (n : Nat) : String :=
  if n < 10 then "000" ++ toString n
  else if n < 100 then "00" ++ toString n
  else if n < 1000 then "0" ++ toString n
  else toString n

/-- Python `t.strftime("%Y-%m-%d %H:%M:%S")` (server.py line 113). -/
def strftimeYmdHMS (t : PyDatetime) : String :=
  pad4 t.year ++ "-" ++ pad2 t.month ++ "-" ++ pad2 t.day ++ " " ++
    pad2 t.hour ++ ":" ++ pad2 t.minute ++ ":" ++ pad2 t.second

/-- Pydantic model `StatusCheck` (server.py lines 51-54): `id` is generated by
`uuid.uuid4()` and `timestamp` by `datetime.utcnow()`; both generators are
modelled as explicit arguments of the handler. -/
structure StatusCheck where
  id : String
  client_name : String
  timestamp : PyDatetime
deriving DecidableEq

/-- Pydantic model `StatusCheckCreate` (server.py lines 56-57). -/
structure StatusCheckCreate where
  client_name : String
deriving DecidableEq

/-- Value stored in a field of a Mongo document, as far as this service reads
them: strings, integers and `datetime` values. -/
inductive BsonValue where
  | str (s : String)
  | int (n : Int)
  | dt (t : PyDatetime)
deriving DecidableEq

/-- Python `str(v)` on a `BsonValue` (used by f-string interpolation).
`str(datetime)` with zero microseconds prints as `"%Y-%m-%d %H:%M:%S"`. -/
def pyStr : BsonValue → String
  | .str s => s
  | .int n => toString n
  | .dt t => strftimeYmdHMS t

/-- Document of the `contacts` collection: a schema-flexible record with a
store-assigned `_id` (Mongo ObjectId, modelled as a `Nat`; `str(_id)` is its
decimal rendering) and arbitrary named fields. -/
structure ContactDoc where
  mongoId : Nat
  fields : List (String × BsonValue)
deriving DecidableEq

/-- Python `contact.get(key)`: first binding of `key` in the document. -/
def docGet (d : ContactDoc) (key : String) : Option BsonValue :=
  (d.fields.find? (fun p => p.fst == key)).map Prod.snd

/-- Python `f"{contact.get(key, default)}"`: the field rendered by `str`, or
the default string when the field is missing. -/
def docGetD (d : ContactDoc) (key : String) (dflt : String) : String :=
  match docGet d key with
  | none => dflt
  | some v => pyStr v

/-- State of the document store: the two collections the service touches
(`db.status_checks` and `db.contacts`).  Mongo `find()` without a sort returns
documents in insertion order here, and `insert_one` appends. -/
structure Store where
  status_checks : List StatusCheck
  contacts : List ContactDoc
deriving DecidableEq

/-- Python `HTTPException(status_code=..., detail=...)`. -/
structure HErr where
  statusCode : Nat
  detail : String
deriving DecidableEq

/-- Liveness route `GET /` (server.py lines 70-72).  The handler never reads
the store handle; it is given the handle here only so that independence from
the store configuration is statable. -/
def root (db : Option Store) : List (String × String) :=
  [("message", "Hello World - backend up")]

/-- Handler `POST /status` = `create_status_check` (server.py lines 76-83).
`freshId` models `str(uuid.uuid4())` and `now` models `datetime.utcnow()`.
Returns the updated store together with the response record. -/
def create_status_check (db : Option Store) (input : StatusCheckCreate)
    (freshId : String) (now : PyDatetime) : Except HErr (Store × StatusCheck) :=
  match db with
  | none => .error ⟨503, "Database not configured"⟩
  | some s =>
    let status_obj : StatusCheck :=
      { id := freshId, client_name := input.client_name, timestamp := now }
    .ok ({ s with status_checks := s.status_checks ++ [status_obj] }, status_obj)

/-- Handler `GET /status` = `get_status_checks` (server.py lines 85-90):
`db.status_checks.find().to_list(1000)` returns at most the first 1000
documents, each re-validated as a `StatusCheck`. -/
def get_status_checks (db : Option Store) : Except HErr (List StatusCheck) :=
  match db with
  | none => .error ⟨503, "Database not configured"⟩
  | some s => .ok (s.status_checks.take 1000)

/-- Mongo BSON type bracket used when `sort("timestamp", -1)` compares values
of different types (missing field sorts with null, below numbers, then
strings, then dates). -/
def bsonTypeRank : Option BsonValue → Nat
  | none => 0
  | some (.int _) => 1
  | some (.str _) => 2
  | some (.dt _) => 3

/-- Chronological linearisation of a datetime (Mongo compares dates by their
epoch offset; this key is strictly monotone in calendar order). -/
def dtKey (t : PyDatetime) : Nat :=
  ((((t.year * 13 + t.month) * 32 + t.day) * 25 + t.hour) * 61 + t.minute) * 61 + t.second

/-- Mongo ascending comparison of two `timestamp` field values: same-type
values compare by value, different types by type bracket. -/
def bvLe (a b : Option BsonValue) : Bool :=
  match a, b with
  | some (.int m), some (.int n) => decide (m ≤ n)
  | some (.str x), some (.str y) => decide (x ≤ y)
  | some (.dt x), some (.dt y) => decide (dtKey x ≤ dtKey y)
  | x, y => decide (bsonTypeRank x ≤ bsonTypeRank y)

/-- Comparator of `db.contacts.find().sort("timestamp", -1)`): document `a`
comes before `b` when its timestamp is greater or equal. -/
def tsDescB (a b : ContactDoc) : Bool :=
  bvLe (docGet b "timestamp") (docGet a "timestamp")

/-- The contacts query result list: sorted by timestamp descending. -/
def sortByTsDesc (l : List ContactDoc) : List ContactDoc :=
  l.mergeSort tsDescB

/-- Static page returned by `GET /admin` when the store handle is `None`
(server.py lines 97-102). -/
def unavailableHtml : String :=
  "\n            <html><body>\n              <h2>Admin panel unavailable</h2>\n              <p>MongoDB is not configured on this deployment. Set MONGO_URL and redeploy to enable admin panel.</p>\n            </body></html>\n        "

/-- The `timestamp` shown on a card (server.py lines 111-113):
`contact.get('timestamp', 'N/A')`, reformatted by `strftime` only when the
value is a `datetime` instance, otherwise rendered verbatim by the f-string. -/
def renderTimestamp (d : ContactDoc) : String :=
  match docGet d "timestamp" with
  | some (.dt t) => strftimeYmdHMS t
  | some v => pyStr v
  | none => "N/A"

/-- One contact card of the admin page (server.py lines 114-124): direct
f-string interpolation of the document fields into the HTML markup. -/
def renderCard (d : ContactDoc) : String :=
  "\n            <div style=\"border:1px solid #ddd; padding:16px; margin:10px 0; border-radius:8px; background:#fff;\">\n              <h3 style=\"margin:0;color:#2563eb;\">"
  ++ docGetD d "name" "N/A"
  ++ "</h3>\n              <p><strong>Email:</strong> "
  ++ docGetD d "email" "N/A"
  ++ "</p>\n              <p><strong>Company:</strong> "
  ++ docGetD d "company" ""
  ++ "</p>\n              <p><strong>Date:</strong> "
  ++ renderTimestamp d
  ++ "</p>\n              <div style=\"background:#f9f9f9;padding:10px;border-left:4px solid #2563eb;\">\n                "
  ++ docGetD d "message" ""
  ++ "\n              </div>\n            </div>\n            "

/-- Placeholder shown when `contacts_html` is empty (server.py lines 126-127). -/
def noSubmissionsHtml : String :=
  "<p style=\x27text-align:center;color:#666;padding:40px;\x27>No submissions yet.</p>"

/-- The full admin page (server.py lines 129-139). -/
def adminPage (total : Nat) (cards : String) : String :=
  "\n        <!DOCTYPE html>\n        <html><head><title>Contact Submissions</title>\n        <meta charset=\"utf-8\" /><meta name=\"viewport\" content=\"width=device-width,initial-scale=1\"/>\n        <style>body\x7bfont-family:Arial,Helvetica,sans-serif;background:#f5f7fb;padding:20px\x7d.container\x7bmax-width:900px;margin:0 auto\x7d</style>\n        </head><body><div class=\x27container\x27>\n        <h1>Contact Submissions</h1>\n        <div><strong>Total:</strong> "
  ++ toString total
  ++ "</div>\n        <div style=\"margin-top:20px\">"
  ++ cards
  ++ "</div>\n        </div></body></html>\n        "

/-- Result of `GET /admin`: an `HTMLResponse` with a status code, or the 500
`HTTPException` of the `except` branch. -/
inductive AdminResult where
  | page (html : String) (statusCode : Nat)
  | err (e : HErr)
deriving DecidableEq

/-- Handler `GET /admin` = `admin_panel` (server.py lines 94-143).
`queryFails` models the store query raising inside the `try` block. -/
def admin_panel (db : Option Store) (queryFails : Bool) : AdminResult :=
  match db with
  | none => .page unavailableHtml 503
  | some s =>
    if queryFails then .err ⟨500, "Failed to generate admin panel"⟩
    else
      let contacts := (sortByTsDesc s.contacts).take 100
      let contacts_html := String.join (contacts.map renderCard)
      let contacts_html := if contacts_html = "" then noSubmissionsHtml else contacts_html
      .page (adminPage contacts.length contacts_html) 200

/-- A contact document as returned by `GET /contacts`: the document with its
`_id` overwritten by `str(contact["_id"])` (server.py lines 152-153). -/
structure ContactOut where
  idStr : String
  fields : List (String × BsonValue)
deriving DecidableEq

def stringifyId (d : ContactDoc) : ContactOut := ⟨toString d.mongoId, d.fields⟩

/-- Success payload of `GET /contacts` (server.py line 154). -/
structure ContactsResult where
  status : String
  count : Nat
  contacts : List ContactOut
deriving DecidableEq

/-- Handler `GET /contacts` = `get_contacts` (server.py lines 146-157).
`queryFails` models the store query raising inside the `try` block. -/
def get_contacts (db : Option Store) (queryFails : Bool) : Except HErr ContactsResult :=
  match db with
  | none => .error ⟨503, "Database not configured"⟩
  | some s =>
    if queryFails then .error ⟨500, "Failed to fetch contacts"⟩
    else
      let contacts := ((sortByTsDesc s.contacts).take 100).map stringifyId
      .ok ⟨"success", contacts.length, contacts⟩

/-- Pydantic model `ContactForm` (server.py lines 59-63), after validation:
`email` has passed the `EmailStr` check and `company` has received its
default. -/
structure ContactForm where
  name : String
  email : String
  company : String
  message : String
deriving DecidableEq

/-- Pydantic model `ContactResponse` (server.py lines 65-67). -/
structure ContactResponse where
  status : String
  message : String
deriving DecidableEq

/-- Outcome of the `requests.post` call to the webhook: a response with a
status code and body text, a `requests.exceptions.Timeout`, or any other
exception raised by the call. -/
inductive WebhookOutcome where
  | response (statusCode : Nat) (text : String)
  | timeout
  | exn
deriving DecidableEq

/-- Outcome of the best-effort `db.contacts.insert_one` (server.py line 190):
it either succeeds or raises. -/
inductive PersistOutcome where
  | ok
  | failed
deriving DecidableEq

/-- Fallback webhook URL baked into the source (server.py lines 165-167). -/
def defaultSheetsUrl : String :=
  "https://script.google.com/macros/s/AKfycbyT65djHFUaZiVA1Jj86BwIuVYrWdttp96KxRlcyb_jMCJN4OL1wP3eCGfL6Lqz7VS6IA/exec"

/-- The outbound HTTP request built by the handler (server.py lines 165-181):
URL from the environment with the baked-in default, the four form fields as
the JSON payload, and `timeout=15`. -/
structure SheetsRequest where
  url : String
  payload : List (String × String)
  timeoutSeconds : Nat
deriving DecidableEq

def sheetsRequest (envUrl : Option String) (form_data : ContactForm) : SheetsRequest :=
  { url := envUrl.getD defaultSheetsUrl
    payload := [("name", form_data.name), ("email", form_data.email),
                ("company", form_data.company), ("message", form_data.message)]
    timeoutSeconds := 15 }

/-- Response of `POST /contact`: the success `ContactResponse`, or an
`HTTPException`. -/
inductive ContactOutcome where
  | success (r : ContactResponse)
  | failure (e : HErr)
deriving DecidableEq

/-- Observable effect of one `POST /contact` request: the response, the store
state afterwards, and the outbound webhook calls that were attempted. -/
structure ContactEffect where
  result : ContactOutcome
  db : Option Store
  calls : List SheetsRequest
deriving DecidableEq

/-- The document persisted on the success path (server.py lines 188-189):
`form_data.dict()` plus a server-assigned `timestamp`; `oid` is the
store-assigned ObjectId. -/
def contactDoc (form_data : ContactForm) (now : PyDatetime) (oid : Nat) : ContactDoc :=
  ⟨oid, [("name", .str form_data.name), ("email", .str form_data.email),
         ("company", .str form_data.company), ("message", .str form_data.message),
         ("timestamp", .dt now)]⟩

/-- Handler `POST /contact` = `contact_form` (server.py lines 161-203).
`outcome` is what the single `requests.post` call produced, `persist` whether
the best-effort insert would succeed, `now` is `datetime.utcnow()` and `oid`
the ObjectId the store would assign.  On webhook status 200 the submission is
persisted best-effort (an insert failure is caught, logged and swallowed) and
the success response returned; on any other status, on timeout and on any
other exception the handler raises 500, with a timeout-specific detail in the
timeout case, and never touches the store. -/
def contact_form (envUrl : Option String) (form_data : ContactForm) (db : Option Store)
    (outcome : WebhookOutcome) (persist : PersistOutcome) (now : PyDatetime)
    (oid : Nat) : ContactEffect :=
  let req := sheetsRequest envUrl form_data
  match outcome with
  | .response 200 _ =>
    let db2 : Option Store :=
      match db, persist with
      | some s, .ok => some { s with contacts := s.contacts ++ [contactDoc form_data now oid] }
      | some s, .failed => some s
      | none, _ => none
    ⟨.success ⟨"success", "Thanks — we\x27ll get back to you."⟩, db2, [req]⟩
  | .response _ _ => ⟨.failure ⟨500, "Failed to send message"⟩, db, [req]⟩
  | .timeout => ⟨.failure ⟨500, "Timeout sending message"⟩, db, [req]⟩
  | .exn => ⟨.failure ⟨500, "Failed to send message"⟩, db, [req]⟩

/-- Raw body of a `POST /contact` request before validation (`company` may be
omitted; its pydantic default is the empty string). -/
structure RawContactInput where
  name : String
  email : String
  company : Option String
  message : String
deriving DecidableEq

/-- Split a character list at every occurrence of a separator. -/
def splitOnChar (c : Char) : List Char → List (List Char)
  | [] => [[]]
  | x :: xs =>
    let r := splitOnChar c xs
    if x = c then [] :: r
    else
      match r with
      | [] => [[x]]
      | y :: ys => (x :: y) :: ys

/-- Modelled from the spec: pydantic `EmailStr`, enforced by the framework
before the handler body runs (this validation code is not part of server.py;
the spec requires the email field to be a syntactically valid email address).
A minimal syntactic check: one `@` separating a nonempty local part from a
domain of at least two nonempty dot-separated labels, and no spaces. -/
def isValidEmail (s : String) : Bool :=
  match splitOnChar '@' s.toList with
  | [localPart, domain] =>
    !localPart.isEmpty && !domain.isEmpty &&
      decide ((splitOnChar '.' domain).length ≥ 2) &&
      (splitOnChar '.' domain).all (fun p => !p.isEmpty) &&
      !s.toList.contains ' '
  | _ => false

/-- Framework-level request validation: the handler body is entered only with
a `ContactForm` whose email passed `EmailStr`; otherwise the framework
rejects the request with 422 and the handler never runs. -/
def validateContact (r : RawContactInput) : Option ContactForm :=
  if isValidEmail r.email then
    some ⟨r.name, r.email, r.company.getD "", r.message⟩
  else none

/-- The `POST /contact` route as dispatched by the framework: validation
first, then the handler.  A validation failure produces no webhook call and
leaves the store untouched. -/
def contactRoute (envUrl : Option String) (r : RawContactInput) (db : Option Store)
    (outcome : WebhookOutcome) (persist : PersistOutcome) (now : PyDatetime)
    (oid : Nat) : ContactEffect :=
  match validateContact r with
  | none => ⟨.failure ⟨422, "value is not a valid email address"⟩, db, []⟩
  | some form_data => contact_form envUrl form_data db outcome persist now oid

/-! Theorems about the embedded handlers. -/

/-- Unfolding lemma: `GET /status` on a configured store returns the first
1000 documents of the collection. -/
theorem get_status_checks_some (s : Store) :
    get_status_checks (some s) = .ok (s.status_checks.take 1000) := rfl

/-- C1 (amended): with the store configured and holding fewer than 1000 status
records, for every client name, a freshly generated identifier not colliding
with any prior record and a creation time, `POST /status` constructs a
`StatusCheck` whose `client_name` equals the input, with that fresh unique
identifier and the creation timestamp, persists exactly that record, and
returns it; a subsequent `GET /status` yields a record whose `client_name`
matches and whose identifier is that unique identifier. -/
theorem status_create_then_get (s : Store) (input : StatusCheckCreate)
    (freshId : String) (now : PyDatetime)
    (hfresh : freshId ∉ s.status_checks.map StatusCheck.id)
    (hlen : s.status_checks.length < 1000) :
    ∃ s2 obj,
      create_status_check (some s) input freshId now = .ok (s2, obj) ∧
      obj.client_name = input.client_name ∧ obj.id = freshId ∧ obj.timestamp = now ∧
      obj.id ∉ s.status_checks.map StatusCheck.id ∧
      s2.status_checks = s.status_checks ++ [obj] ∧ s2.contacts = s.contacts ∧
      ∃ l, get_status_checks (some s2) = .ok l ∧
        ∃ r, r ∈ l ∧ r.client_name = input.client_name ∧ r.id = freshId := by
  refine ⟨_, _, rfl, rfl, rfl, rfl, hfresh, rfl, rfl, ?_⟩
  rw [get_status_checks_some]
  refine ⟨_, rfl, ?_⟩
  dsimp only
  rw [List.take_of_length_le
    (by simp only [List.length_append, List.length_cons, List.length_nil]; omega)]
  exact ⟨⟨freshId, input.client_name, now⟩, by simp, rfl, rfl⟩

/-- Witness for `status_create_then_get` at the empty store. -/
theorem status_create_then_get_witness :
    ∃ s2 obj,
      create_status_check (some ⟨[], []⟩) ⟨"acme"⟩ "id-1" ⟨2024, 1, 1, 12, 0, 0⟩
        = .ok (s2, obj) ∧
      obj.client_name = "acme" ∧ obj.id = "id-1" ∧ obj.timestamp = ⟨2024, 1, 1, 12, 0, 0⟩ ∧
      obj.id ∉ ([] : List StatusCheck).map StatusCheck.id ∧
      s2.status_checks = ([] : List StatusCheck) ++ [obj] ∧ s2.contacts = [] ∧
      ∃ l, get_status_checks (some s2) = .ok l ∧
        ∃ r, r ∈ l ∧ r.client_name = "acme" ∧ r.id = "id-1" :=
  status_create_then_get ⟨[], []⟩ ⟨"acme"⟩ "id-1" ⟨2024, 1, 1, 12, 0, 0⟩
    (by simp) (by decide)

/-- Store whose `status_checks` collection already holds 1000 records. -/
def bigStatusStore : Store :=
  ⟨List.replicate 1000 ⟨"a", "old", ⟨2024, 1, 1, 0, 0, 0⟩⟩, []⟩

/-- C1 counterexample: with 1000 prior status records in the store, the
record created by `POST /status` (fresh id `"b"`) is persisted but a
subsequent `GET /status` (capped at the first 1000 documents) yields no
record with that identifier, so the claim as stated fails at this input. -/
theorem status_get_cap_misses_new_record :
    ∃ s2 obj,
      create_status_check (some bigStatusStore) ⟨"acme"⟩ "b" ⟨2024, 1, 2, 0, 0, 0⟩
        = .ok (s2, obj) ∧
      obj.client_name = "acme" ∧ obj.id = "b" ∧
      ∃ l, get_status_checks (some s2) = .ok l ∧ ∀ r ∈ l, r.id ≠ "b" := by
  refine ⟨_, _, rfl, rfl, rfl, ?_⟩
  rw [get_status_checks_some]
  refine ⟨_, rfl, ?_⟩
  intro r hr
  simp only [bigStatusStore] at hr
  rw [List.take_append_of_le_length (by rw [List.length_replicate])] at hr
  rw [List.take_of_length_le (by rw [List.length_replicate])] at hr
  have h2 : r = ⟨"a", "old", ⟨2024, 1, 1, 0, 0, 0⟩⟩ := List.eq_of_mem_replicate hr
  subst h2
  decide

/-- Unfolding lemma: the handler on a webhook 200 response. -/
theorem contact_form_200 (envUrl : Option String) (form_data : ContactForm)
    (db : Option Store) (persist : PersistOutcome) (now : PyDatetime) (oid : Nat)
    (text : String) :
    contact_form envUrl form_data db (.response 200 text) persist now oid
      = ⟨.success ⟨"success", "Thanks — we\x27ll get back to you."⟩,
         (match db, persist with
          | some s, .ok => some { s with contacts := s.contacts ++ [contactDoc form_data now oid] }
          | some s, .failed => some s
          | none, _ => none),
         [sheetsRequest envUrl form_data]⟩ := rfl

/-- Unfolding lemma: the handler on a webhook response with a status other
than 200 raises 500 with the generic detail and does not touch the store. -/
theorem contact_form_non200 (envUrl : Option String) (form_data : ContactForm)
    (db : Option Store) (persist : PersistOutcome) (now : PyDatetime) (oid : Nat)
    (code : Nat) (text : String) (hcode : code ≠ 200) :
    contact_form envUrl form_data db (.response code text) persist now oid
      = ⟨.failure ⟨500, "Failed to send message"⟩, db, [sheetsRequest envUrl form_data]⟩ := by
  unfold contact_form
  split
  · rename_i heq
    injection heq with h1 h2
    exact absurd h1 hcode
  · rfl
  · rename_i heq
    exact absurd heq (by intro h; cases h)
  · rename_i heq
    exact absurd heq (by intro h; cases h)

/-- C3: on a webhook 200 response, `POST /contact` returns the success
acknowledgment whatever the store handle and whatever the outcome of the
best-effort persist; a persist failure is swallowed and never changes the
response. -/
theorem contact_success_unaffected_by_persist (envUrl : Option String)
    (form_data : ContactForm) (db : Option Store) (persist : PersistOutcome)
    (now : PyDatetime) (oid : Nat) (text : String) :
    (contact_form envUrl form_data db (.response 200 text) persist now oid).result
      = .success ⟨"success", "Thanks — we\x27ll get back to you."⟩ := rfl

/-- C4 (amended): on a webhook response with a non-200 status, `POST /contact`
fails with the 500 `HTTPException` whose detail is the generic message
`"Failed to send message"`, and no write to the document store is attempted:
the store state is unchanged on this error path. -/
theorem contact_webhook_non200 (envUrl : Option String) (form_data : ContactForm)
    (db : Option Store) (persist : PersistOutcome) (now : PyDatetime) (oid : Nat)
    (code : Nat) (text : String) (hcode : code ≠ 200) :
    contact_form envUrl form_data db (.response code text) persist now oid
      = ⟨.failure ⟨500, "Failed to send message"⟩, db, [sheetsRequest envUrl form_data]⟩ :=
  contact_form_non200 envUrl form_data db persist now oid code text hcode

/-- Witness for `contact_webhook_non200` at a webhook 500 response. -/
theorem contact_webhook_non200_witness :
    contact_form none ⟨"Ann", "ann@example.com", "", "hi"⟩ none
        (.response 500 "server error") .ok ⟨2024, 1, 1, 0, 0, 0⟩ 0
      = ⟨.failure ⟨500, "Failed to send message"⟩, none,
         [sheetsRequest none ⟨"Ann", "ann@example.com", "", "hi"⟩]⟩ :=
  contact_webhook_non200 none ⟨"Ann", "ann@example.com", "", "hi"⟩ none .ok
    ⟨2024, 1, 1, 0, 0, 0⟩ 0 500 "server error" (by decide)

/-- C4 counterexample: at a concrete valid form and a webhook 500 response the
handler's detail string is `"Failed to send message"` (capital F), not the
claimed literal `"failed to send message"`; the rest of the claim (no store
write) holds. -/
theorem contact_non200_detail_capitalised :
    (contact_form none ⟨"Ann", "ann@example.com", "", "hi"⟩ none
        (.response 500 "server error") .ok ⟨2024, 1, 1, 0, 0, 0⟩ 0).result
      = .failure ⟨500, "Failed to send message"⟩ ∧
    "Failed to send message" ≠ "failed to send message" := by
  refine ⟨?_, by decide⟩
  rw [contact_form_non200 none ⟨"Ann", "ann@example.com", "", "hi"⟩ none .ok
    ⟨2024, 1, 1, 0, 0, 0⟩ 0 500 "server error" (by decide)]

/-- C5 (amended): the outbound webhook request always carries `timeout=15`,
and when the call times out `POST /contact` fails with the 500
`HTTPException` whose detail is the timeout-specific message
`"Timeout sending message"`, distinct from the generic failure message. -/
theorem contact_webhook_timeout (envUrl : Option String) (form_data : ContactForm)
    (db : Option Store) (persist : PersistOutcome) (now : PyDatetime) (oid : Nat) :
    (sheetsRequest envUrl form_data).timeoutSeconds = 15 ∧
    contact_form envUrl form_data db .timeout persist now oid
      = ⟨.failure ⟨500, "Timeout sending message"⟩, db, [sheetsRequest envUrl form_data]⟩ ∧
    "Timeout sending message" ≠ "Failed to send message" :=
  ⟨rfl, rfl, by decide⟩

/-- C5 counterexample: at a concrete valid form the timeout detail string is
`"Timeout sending message"` (capital T), not the claimed literal
`"timeout sending message"`; the timeout itself and the 15-unit timeout of
the request hold. -/
theorem contact_timeout_detail_capitalised :
    (contact_form none ⟨"Ann", "ann@example.com", "", "hi"⟩ none .timeout .ok
        ⟨2024, 1, 1, 0, 0, 0⟩ 0).result
      = .failure ⟨500, "Timeout sending message"⟩ ∧
    "Timeout sending message" ≠ "timeout sending message" :=
  ⟨rfl, by decide⟩

/-- C6: with the store handle unconfigured, `POST /status`, `GET /status` and
`GET /contacts` all raise 503 `"Database not configured"`, `GET /admin`
returns the static unavailable page with status 503, and `GET /` and the
webhook path of `POST /contact` (response and attempted webhook calls) behave
exactly as with any configured store. -/
theorem store_unconfigured_degrades (input : StatusCheckCreate) (freshId : String)
    (now : PyDatetime) (q : Bool) (envUrl : Option String) (form_data : ContactForm)
    (outcome : WebhookOutcome) (persist : PersistOutcome) (oid : Nat) (s : Store) :
    create_status_check none input freshId now = .error ⟨503, "Database not configured"⟩ ∧
    get_status_checks none = .error ⟨503, "Database not configured"⟩ ∧
    get_contacts none q = .error ⟨503, "Database not configured"⟩ ∧
    admin_panel none q = .page unavailableHtml 503 ∧
    root none = root (some s) ∧
    (contact_form envUrl form_data none outcome persist now oid).result
      = (contact_form envUrl form_data (some s) outcome persist now oid).result ∧
    (contact_form envUrl form_data none outcome persist now oid).calls
      = (contact_form envUrl form_data (some s) outcome persist now oid).calls := by
  refine ⟨rfl, rfl, rfl, rfl, rfl, ?_, ?_⟩ <;>
    (cases outcome with
     | response code text =>
       rcases eq_or_ne code 200 with h | h
       · subst h; rfl
       · rw [contact_form_non200 envUrl form_data none persist now oid code text h,
             contact_form_non200 envUrl form_data (some s) persist now oid code text h]
     | timeout => rfl
     | exn => rfl)

/-- C7: whatever the configured store holds, `GET /status` returns at most
1000 records and `GET /contacts` returns at most 100 submissions. -/
theorem response_caps (s : Store) (q : Bool) :
    ((get_status_checks (some s)).toOption.getD []).length ≤ 1000 ∧
    (((get_contacts (some s) q).toOption.map ContactsResult.contacts).getD []).length ≤ 100 := by
  constructor
  · rw [get_status_checks_some]
    show (s.status_checks.take 1000).length ≤ 1000
    rw [List.length_take]
    omega
  · cases q
    · show (((sortByTsDesc s.contacts).take 100).map stringifyId).length ≤ 100
      rw [List.length_map, List.length_take]
      omega
    · show (0 : Nat) ≤ 100
      omega

/-- Totality of the Mongo timestamp comparison. -/
theorem bvLe_total (a b : Option BsonValue) : (bvLe a b || bvLe b a) = true := by
  rcases a with _ | (x | m | t1) <;> rcases b with _ | (y | n | t2) <;>
    simp [bvLe, bsonTypeRank] <;>
    first
      | omega
      | exact le_total _ _

/-- Transitivity of the Mongo timestamp comparison. -/
theorem bvLe_trans (a b c : Option BsonValue) :
    bvLe a b = true → bvLe b c = true → bvLe a c = true := by
  intro h1 h2
  rcases a with _ | (x1 | m1 | t1) <;> rcases b with _ | (x2 | m2 | t2) <;>
    rcases c with _ | (x3 | m3 | t3) <;>
    simp_all [bvLe, bsonTypeRank] <;>
    first
      | omega
      | exact le_trans h1 h2

/-- Transitivity of the descending comparator used by the contacts queries. -/
theorem tsDescB_trans (a b c : ContactDoc) :
    tsDescB a b = true → tsDescB b c = true → tsDescB a c = true :=
  fun h1 h2 => bvLe_trans _ _ _ h2 h1

/-- Totality of the descending comparator used by the contacts queries. -/
theorem tsDescB_total (a b : ContactDoc) : (tsDescB a b || tsDescB b a) = true :=
  bvLe_total _ _

/-- The contacts query result is pairwise sorted by the descending
comparator. -/
theorem sortByTsDesc_sorted (l : List ContactDoc) :
    (sortByTsDesc l).Pairwise (fun a b => tsDescB a b = true) :=
  List.sorted_mergeSort tsDescB_trans tsDescB_total l

/-- Membership is preserved by the contacts query. -/
theorem mem_sortByTsDesc {d : ContactDoc} {l : List ContactDoc} :
    d ∈ sortByTsDesc l → d ∈ l := by
  intro h
  rw [sortByTsDesc, List.mem_mergeSort] at h
  exact h

/-- The descending comparator read off an output document (its `fields` carry
the timestamp; `stringifyId` leaves them unchanged). -/
def outTsDescB (a b : ContactOut) : Bool :=
  tsDescB ⟨0, a.fields⟩ ⟨0, b.fields⟩

/-- C9: with the store configured and the query succeeding, `GET /contacts`
returns status `"success"`, at most 100 submissions sorted by timestamp
descending, each a stored document with its store-assigned identifier
stringified, and a count equal to the number of returned submissions; with
the store unconfigured it raises 503, and on query failure it raises 500. -/
theorem contacts_endpoint_contract (s : Store) :
    (∃ r, get_contacts (some s) false = .ok r ∧
      r.status = "success" ∧
      r.count = r.contacts.length ∧
      r.contacts.length ≤ 100 ∧
      r.contacts.Pairwise (fun a b => outTsDescB a b = true) ∧
      ∀ c ∈ r.contacts, ∃ d ∈ s.contacts, c = stringifyId d) ∧
    (∀ q, get_contacts none q = .error ⟨503, "Database not configured"⟩) ∧
    get_contacts (some s) true = .error ⟨500, "Failed to fetch contacts"⟩ := by
  refine ⟨⟨_, rfl, rfl, rfl, ?_, ?_, ?_⟩, fun q => rfl, rfl⟩
  · rw [List.length_map, List.length_take]
    omega
  · rw [List.pairwise_map]
    exact ((sortByTsDesc_sorted s.contacts).sublist (List.take_sublist 100 _)).imp
      (fun h => h)
  · intro c hc
    rw [List.mem_map] at hc
    obtain ⟨d, hd, rfl⟩ := hc
    exact ⟨d, mem_sortByTsDesc (List.mem_of_mem_take hd), rfl⟩

/-- C10: rendering of a stored contact document on the admin page is total
over missing fields: a missing name or email renders as `N/A`, a missing
company or message as the empty string, a missing timestamp as `N/A`; only a
`datetime` timestamp is reformatted by `strftime`, any other timestamp value
is rendered verbatim by `str`; and no document of a successfully queried
store makes the handler take the 500 branch: the page is always built with
status 200. -/
theorem admin_render_total (d : ContactDoc) (s : Store) :
    (docGet d "name" = none → docGetD d "name" "N/A" = "N/A") ∧
    (docGet d "email" = none → docGetD d "email" "N/A" = "N/A") ∧
    (docGet d "company" = none → docGetD d "company" "" = "") ∧
    (docGet d "message" = none → docGetD d "message" "" = "") ∧
    (docGet d "timestamp" = none → renderTimestamp d = "N/A") ∧
    (∀ t, docGet d "timestamp" = some (.dt t) → renderTimestamp d = strftimeYmdHMS t) ∧
    (∀ v, docGet d "timestamp" = some (.str v) → renderTimestamp d = v) ∧
    (∀ n, docGet d "timestamp" = some (.int n) → renderTimestamp d = toString n) ∧
    ∃ html, admin_panel (some s) false = .page html 200 := by
  refine ⟨?_, ?_, ?_, ?_, ?_, ?_, ?_, ?_, _, rfl⟩ <;>
    first
      | (intro h; rw [docGetD, h])
      | (intro h; rw [renderTimestamp, h])
      | (intro t h; rw [renderTimestamp, h]; try rfl)

/-- Witness for `admin_render_total` at a document with no fields at all and
at documents with a datetime, a string and an integer timestamp. -/
theorem admin_render_total_witness :
    (docGet ⟨7, []⟩ "name" = none → docGetD ⟨7, []⟩ "name" "N/A" = "N/A") ∧
    (docGet ⟨7, []⟩ "email" = none → docGetD ⟨7, []⟩ "email" "N/A" = "N/A") ∧
    (docGet ⟨7, []⟩ "company" = none → docGetD ⟨7, []⟩ "company" "" = "") ∧
    (docGet ⟨7, []⟩ "message" = none → docGetD ⟨7, []⟩ "message" "" = "") ∧
    (docGet ⟨7, []⟩ "timestamp" = none → renderTimestamp ⟨7, []⟩ = "N/A") ∧
    (∀ t, docGet ⟨7, []⟩ "timestamp" = some (.dt t) →
      renderTimestamp ⟨7, []⟩ = strftimeYmdHMS t) ∧
    (∀ v, docGet ⟨7, []⟩ "timestamp" = some (.str v) → renderTimestamp ⟨7, []⟩ = v) ∧
    (∀ n, docGet ⟨7, []⟩ "timestamp" = some (.int n) → renderTimestamp ⟨7, []⟩ = toString n) ∧
    ∃ html, admin_panel (some ⟨[], [⟨7, []⟩]⟩) false = .page html 200 :=
  admin_render_total ⟨7, []⟩ ⟨[], [⟨7, []⟩]⟩

/-- Decides whether `pat` occurs as a contiguous run inside `l`. -/
def hasSubList (l pat : List Char) : Bool :=
  (List.range (l.length + 1)).any (fun i => (l.drop i).take pat.length == pat)

/-- Decides whether `pat` occurs as a substring of `s`. -/
def strHasSub (s pat : String) : Bool := hasSubList s.toList pat.toList

/-- Modelled from the spec: the escaping the reimplementation must apply to
untrusted fields before interpolating them into the admin page markup
(`html.escape` semantics on the HTML special characters).  No such function
exists in server.py. -/
def escapeHtmlSpec (s : String) : String :=
  String.join (s.toList.map (fun c =>
    if c = '&' then "&amp;"
    else if c = '<' then "&lt;"
    else if c = '>' then "&gt;"
    else if c = '\x22' then "&quot;"
    else if c = '\x27' then "&#x27;"
    else String.singleton c))

/-- A stored contact submission whose message is an HTML script element. -/
def xssDoc : ContactDoc :=
  ⟨1, [("name", .str "Mallory"), ("email", .str "mallory@example.com"),
       ("company", .str ""), ("message", .str "<script>alert(1)</script>"),
       ("timestamp", .dt ⟨2024, 1, 1, 0, 0, 0⟩)]⟩

set_option maxRecDepth 40000 in
/-- C2: the card rendered for `xssDoc` contains the raw, unescaped
user-supplied message `<script>alert(1)</script>` verbatim (the f-string
interpolates it directly into the markup), while the escaping demanded by the
spec would have altered it; so the rendered admin page interpolates raw
user-supplied text unescaped into the HTML output. -/
theorem admin_page_interpolates_raw_message :
    strHasSub (renderCard xssDoc) "<script>alert(1)</script>" = true ∧
    escapeHtmlSpec "<script>alert(1)</script>" ≠ "<script>alert(1)</script>" := by
  constructor
  · decide
  · decide

/-- C8: a `POST /contact` request whose email field is not syntactically
valid is rejected at input validation: the handler body never runs, no
outbound webhook call is attempted and the store is untouched. -/
theorem invalid_email_rejected (envUrl : Option String) (r : RawContactInput)
    (db : Option Store) (outcome : WebhookOutcome) (persist : PersistOutcome)
    (now : PyDatetime) (oid : Nat) (hbad : isValidEmail r.email = false) :
    contactRoute envUrl r db outcome persist now oid
      = ⟨.failure ⟨422, "value is not a valid email address"⟩, db, []⟩ := by
  rw [contactRoute, validateContact, hbad]
  rfl

/-- Witness for `invalid_email_rejected` at the email `"not-an-email"`. -/
theorem invalid_email_rejected_witness :
    contactRoute none ⟨"Ann", "not-an-email", none, "hi"⟩ none
        (.response 200 "ok") .ok ⟨2024, 1, 1, 0, 0, 0⟩ 0
      = ⟨.failure ⟨422, "value is not a valid email address"⟩, none, []⟩ :=
  invalid_email_rejected none ⟨"Ann", "not-an-email", none, "hi"⟩ none
    (.response 200 "ok") .ok ⟨2024, 1, 1, 0, 0, 0⟩ 0 (by decide)
